import Mathlib

/-!
Shallow embedding of the Terragrunt provider plugin cache service
(`terraform/cache/services/provider.go`).

The filesystem is modelled as the list of paths that currently exist.
Fallible collaborators (directory creation, lockfile acquisition, symlink
creation, network fetch, archive decompression, file removal) are modelled
by an `Oracle` of per-path success functions; on failure they leave the
filesystem unchanged.  Every invocation of a collaborator is recorded in an
event trace so that "never invokes fetch/decompress" style properties can
be stated.
-/

namespace TgCache

/-- Model of a resolved download URL (`net/url.URL`): `full` is the string
form used for fetching (`URL.String()`), `path` is the `URL.Path` component
whose basename names the archive file. -/
structure URL where
  full : String
  path : String
deriving DecidableEq, Repr

/-- Modelled from the spec: `models.Provider` is not part of the provided
sources.  Identity of a plugin binary: registry host, namespace, type/name,
version, target platform (OS + architecture); plus a resolved `DownloadURL`
set after resolution (excluded from identity). -/
structure Provider where
  registryName : String
  namespaceName : String
  name : String
  version : String
  os : String
  arch : String
  downloadURL : Option URL
deriving DecidableEq, Repr

/-- `filepath.Join` for the non-empty, already-clean path components this
service produces. -/
def joinPath (a b : String) : String := a ++ "/" ++ b

/-- Modelled from the spec: `models.Provider.Path()` is not part of the
provided sources.  On-disk identity path `host/namespace/type/version`. -/
def Provider.idPath (p : Provider) : String :=
  p.registryName ++ "/" ++ p.namespaceName ++ "/" ++ p.name ++ "/" ++ p.version

/-- Modelled from the spec: `models.Provider.Platform()` is not part of the
provided sources.  Platform string `os_arch`. -/
def Provider.platform (p : Provider) : String := p.os ++ "_" ++ p.arch

/-- Modelled from the spec: rendering of a provider used in error messages
(`%q` of the provider names its identity). -/
def Provider.toStr (p : Provider) : String :=
  p.registryName ++ "/" ++ p.namespaceName ++ "/" ++ p.name ++ "/" ++ p.version ++ "/" ++ p.platform

/-- Modelled from the spec: `models.Provider.Match` is not part of the
provided sources.  Two providers are the same cache target when all
identity fields match; the download URL is excluded from matching. -/
def Provider.Match (p target : Provider) : Bool :=
  p.registryName == target.registryName && p.namespaceName == target.namespaceName &&
  p.name == target.name && p.version == target.version &&
  p.os == target.os && p.arch == target.arch

/-- Characters of the component after the last slash. -/
def baseNameAux : List Char → List Char → List Char
  | [], acc => acc
  | c :: cs, acc => if c = '/' then baseNameAux cs [] else baseNameAux cs (acc ++ [c])

/-- `filepath.Base` for the slash-separated paths used here: the component
after the last slash. -/
def baseName (s : String) : String := ⟨baseNameAux s.data []⟩

/-- One unit of cache work for a single provider; mirrors the Go
`ProviderCache` struct minus the embedded service pointer (the service is
passed explicitly to its methods). -/
structure ProviderCache where
  provider : Provider
  needCacheArchive : Bool
  ready : Bool
deriving DecidableEq, Repr

/-- The tracked collection of caches. -/
abbrev ProviderCaches := List ProviderCache

/-- Run-scoped service state: base cache directory, tracked collection,
dispatch queue (`providerCacheCh`, in send order), service-level archive
retention flag and resolved host plugin directory. -/
structure ProviderService where
  baseCacheDir : String
  providerCaches : ProviderCaches
  providerCacheCh : List ProviderCache
  needCacheArchive : Bool
  terraformPluginDir : String
deriving DecidableEq, Repr

/-- `NewProviderService`: empty service. -/
def NewProviderService (baseCacheDir : String) (needCacheArchive : Bool) : ProviderService :=
  { baseCacheDir := baseCacheDir
    providerCaches := []
    providerCacheCh := []
    needCacheArchive := needCacheArchive
    terraformPluginDir := "" }

/-- `ProviderCaches.Find`: first tracked entry whose identity matches the
target. -/
def ProviderCaches.Find (providers : ProviderCaches) (target : Provider) : Option ProviderCache :=
  providers.find? (fun c => c.provider.Match target)

/-- `providerDir` = baseCacheDir / identity-path. -/
def ProviderCache.providerDir (svc : ProviderService) (cache : ProviderCache) : String :=
  joinPath svc.baseCacheDir cache.provider.idPath

/-- `lockFilename` = baseCacheDir / identity-path / platform + ".lock". -/
def ProviderCache.lockFilename (svc : ProviderService) (cache : ProviderCache) : String :=
  joinPath (joinPath svc.baseCacheDir cache.provider.idPath) cache.provider.platform ++ ".lock"

/-- `platformDir` = baseCacheDir / identity-path / platform. -/
def ProviderCache.platformDir (svc : ProviderService) (cache : ProviderCache) : String :=
  joinPath (joinPath svc.baseCacheDir cache.provider.idPath) cache.provider.platform

/-- `terraformPluginPlatformDir` = terraformPluginDir / identity-path / platform. -/
def ProviderCache.terraformPluginPlatformDir (svc : ProviderService) (cache : ProviderCache) : String :=
  joinPath (joinPath svc.terraformPluginDir cache.provider.idPath) cache.provider.platform

/-- `ArchiveFilename`: empty when the download URL is unset, otherwise
baseCacheDir / identity-path / basename(DownloadURL.Path). -/
def ProviderCache.ArchiveFilename (svc : ProviderService) (cache : ProviderCache) : String :=
  match cache.provider.downloadURL with
  | none => ""
  | some u => joinPath (joinPath svc.baseCacheDir cache.provider.idPath) (baseName u.path)

/-- The filesystem: the set (as a list) of paths that exist. -/
abbrev FS := List String

/-- `util.FileExists` (collaborator, modelled as set membership). -/
def fileExists (fs : FS) (p : String) : Bool := decide (p ∈ fs)

/-- Record a path as existing. -/
def insertPath (fs : FS) (p : String) : FS :=
  if p ∈ fs then fs else p :: fs

/-- `p` lies strictly inside directory `dir` (i.e. `dir ++ "/"` leads `p`). -/
def childOf (dir p : String) : Bool :=
  decide (p.data.take (dir.data.length + 1) = dir.data ++ ['/'])

/-- Per-path success outcomes of the fallible collaborators. -/
structure Oracle where
  mkdirOk : String → Bool
  lockOk : String → Bool
  symlinkOk : String → Bool
  fetchOk : String → Bool
  decompressOk : String → Bool
  removeOk : String → Bool

/-- `os.Remove`: succeeds only on an existing path that is not a non-empty
directory (and whose removal the oracle permits); on failure the filesystem
is unchanged and the `Bool` result is `false`. -/
def osRemoveTry (o : Oracle) (fs : FS) (p : String) : FS × Bool :=
  if fileExists fs p && o.removeOk p && !(fs.any (childOf p)) then
    (fs.filter (fun q => decide (q ≠ p)), true)
  else
    (fs, false)

/-- `os.Remove` with the error discarded (as in the service loop rollback). -/
def osRemove (o : Oracle) (fs : FS) (p : String) : FS := (osRemoveTry o fs p).1

/-- Trace of collaborator invocations made during warm-up. -/
inductive Event where
  | mkdirAll (path : String)
  | acquireLock (path : String)
  | symlink (oldname newname : String)
  | fetch (url dest : String)
  | decompress (dir archive : String)
deriving DecidableEq, Repr

/-- Errors of the cache service, one constructor per failing operation. -/
inductive CacheErr where
  | mkdirFailed (path : String)
  | lockFailed (path : String)
  | symlinkFailed (oldname newname : String)
  | downloadURLUndefined (provider : Provider)
  | fetchFailed (url dest : String)
  | decompressFailed (dir archive : String)
  | removeFailed (path : String)
deriving DecidableEq, Repr

/-- The message carried by each error; `downloadURLUndefined` mirrors the
Go format string `failed to cache provider %q, the download URL is
undefined`. -/
def CacheErr.message : CacheErr → String
  | .mkdirFailed p => "cannot create directory " ++ p
  | .lockFailed p => "cannot acquire lockfile " ++ p
  | .symlinkFailed a b => "cannot create symlink " ++ b ++ " to " ++ a
  | .downloadURLUndefined p =>
      "failed to cache provider \"" ++ p.toStr ++ "\", the download URL is undefined"
  | .fetchFailed u d => "cannot fetch " ++ u ++ " to " ++ d
  | .decompressFailed d a => "cannot decompress " ++ a ++ " into " ++ d
  | .removeFailed p => "cannot remove " ++ p

/-- Outcome of warm-up step 3 (populate or reuse the platform directory). -/
inductive Step3Res where
  | fail (fs : FS) (events : List Event) (e : CacheErr)
  | ok (fs : FS) (cache : ProviderCache) (alreadyCached : Bool) (events : List Event)

/-- Step 3 of `warmUp`: if `platformDir` does not exist, either symlink it
to the host plugin directory (marking the unit already cached) or create it
and flag that an archive fetch is required; if it already exists the unit
is already cached. -/
def warmUpStep3 (o : Oracle) (tppd pd : String) (cache : ProviderCache) (fs : FS) : Step3Res :=
  if fileExists fs pd = false then
    if fileExists fs tppd = true then
      if o.symlinkOk pd = false then .fail fs [.symlink tppd pd] (.symlinkFailed tppd pd)
      else .ok (insertPath fs pd) cache true [.symlink tppd pd]
    else
      if o.mkdirOk pd = false then .fail fs [.mkdirAll pd] (.mkdirFailed pd)
      else .ok (insertPath fs pd) { cache with needCacheArchive := true } false [.mkdirAll pd]
  else .ok fs cache true []

/-- Outcome of warm-up steps 4 and 5. -/
inductive StepRes where
  | fail (fs : FS) (events : List Event) (e : CacheErr)
  | ok (fs : FS) (events : List Event)

/-- Step 4 of `warmUp`: when an archive is needed and not on disk, require
the download URL (its absence is an immediate error naming the provider)
and fetch it. -/
def warmUpStep4 (o : Oracle) (archiveFilename : String) (cache : ProviderCache) (fs : FS) : StepRes :=
  if cache.needCacheArchive && !fileExists fs archiveFilename then
    match cache.provider.downloadURL with
    | none => .fail fs [] (.downloadURLUndefined cache.provider)
    | some u =>
      if o.fetchOk archiveFilename = false then
        .fail fs [.fetch u.full archiveFilename] (.fetchFailed u.full archiveFilename)
      else .ok (insertPath fs archiveFilename) [.fetch u.full archiveFilename]
  else .ok fs []

/-- Step 5 of `warmUp`: unless the unit was already cached, decompress the
archive into the platform directory (extracted contents are modelled by a
marker entry inside the directory; a failed decompression adds nothing). -/
def warmUpStep5 (o : Oracle) (pd archiveFilename : String) (alreadyCached : Bool) (fs : FS) : StepRes :=
  if alreadyCached then .ok fs []
  else
    if o.decompressOk archiveFilename = false then
      .fail fs [.decompress pd archiveFilename] (.decompressFailed pd archiveFilename)
    else .ok (insertPath fs (joinPath pd "unpacked")) [.decompress pd archiveFilename]

/-- Result of a whole warm-up run. -/
structure WarmUpOut where
  fs : FS
  cache : ProviderCache
  res : Except CacheErr Unit
  events : List Event
deriving Repr

/-- `ProviderCache.warmUp`: create the provider directory, acquire the
path-scoped lock, then run steps 3-5; the possibly updated
`needCacheArchive` flag travels in the returned cache. -/
def ProviderCache.warmUp (o : Oracle) (svc : ProviderService) (cache : ProviderCache) (fs : FS) :
    WarmUpOut :=
  let tppd := ProviderCache.terraformPluginPlatformDir svc cache
  let pd := ProviderCache.platformDir svc cache
  let prd := ProviderCache.providerDir svc cache
  let archiveFilename := ProviderCache.ArchiveFilename svc cache
  let lockfileName := ProviderCache.lockFilename svc cache
  if o.mkdirOk prd = false then
    { fs := fs, cache := cache, res := .error (.mkdirFailed prd), events := [.mkdirAll prd] }
  else
    let fs1 := insertPath fs prd
    let ev1 : List Event := [.mkdirAll prd, .acquireLock lockfileName]
    if o.lockOk lockfileName = false then
      { fs := fs1, cache := cache, res := .error (.lockFailed lockfileName), events := ev1 }
    else
      match warmUpStep3 o tppd pd cache fs1 with
      | .fail fs3 ev3 e => { fs := fs3, cache := cache, res := .error e, events := ev1 ++ ev3 }
      | .ok fs3 cache3 alreadyCached ev3 =>
        match warmUpStep4 o archiveFilename cache3 fs3 with
        | .fail fs4 ev4 e =>
            { fs := fs4, cache := cache3, res := .error e, events := ev1 ++ ev3 ++ ev4 }
        | .ok fs4 ev4 =>
          match warmUpStep5 o pd archiveFilename alreadyCached fs4 with
          | .fail fs5 ev5 e =>
              { fs := fs5, cache := cache3, res := .error e, events := ev1 ++ ev3 ++ ev4 ++ ev5 }
          | .ok fs5 ev5 =>
              { fs := fs5, cache := cache3, res := .ok (), events := ev1 ++ ev3 ++ ev4 ++ ev5 }

/-- `ProviderCache.removeArchive`: delete the archive file when the unit's
`needCacheArchive` flag is set and the file exists. -/
def ProviderCache.removeArchive (o : Oracle) (svc : ProviderService) (cache : ProviderCache)
    (fs : FS) : FS × Option CacheErr :=
  let archiveFilename := ProviderCache.ArchiveFilename svc cache
  if cache.needCacheArchive && fileExists fs archiveFilename then
    match osRemoveTry o fs archiveFilename with
    | (fs', true) => (fs', none)
    | (fs', false) => (fs', some (.removeFailed archiveFilename))
  else (fs, none)

/-- Result of one spawned warm-up task (the `errgroup.Go` body). -/
structure GoOut where
  fs : FS
  cache : ProviderCache
  err : Option CacheErr
  events : List Event
deriving Repr

/-- The body of the task spawned by `RunCacheWorker` for one enqueued
cache: run warm-up; on failure remove the platform directory (ignoring the
removal error) and report the error; on success mark the cache ready. -/
def workerGo (o : Oracle) (svc : ProviderService) (cache : ProviderCache) (fs : FS) : GoOut :=
  let out := ProviderCache.warmUp o svc cache fs
  match out.res with
  | .error e =>
      { fs := osRemove o out.fs (ProviderCache.platformDir svc cache)
        cache := out.cache, err := some e, events := out.events }
  | .ok _ =>
      { fs := out.fs, cache := { out.cache with ready := true }, err := none, events := out.events }

/-- Tracked caches and collected task errors after all spawned tasks ran. -/
structure TasksOut where
  fs : FS
  tracked : List ProviderCache
  errs : List CacheErr
deriving Repr

/-- All warm-up tasks for the enqueued caches, linearized in queue order;
models the run in which every enqueued cache's task was spawned and ran to
completion before shutdown. -/
def runTasks (o : Oracle) (svc : ProviderService) (fs : FS) (queue : List ProviderCache) : TasksOut :=
  match queue with
  | [] => { fs := fs, tracked := [], errs := [] }
  | c :: rest =>
    let g := workerGo o svc c fs
    let t := runTasks o svc g.fs rest
    { fs := t.fs, tracked := g.cache :: t.tracked, errs := g.err.toList ++ t.errs }

/-- `errgroup.Group.Wait` keeps only the first error of the group. -/
def errgroupWait (errs : List CacheErr) : Option CacheErr := errs.head?

/-- Filesystem and collected errors after shutdown cleanup. -/
structure CleanupOut where
  fs : FS
  errs : List CacheErr
deriving Repr

/-- Shutdown cleanup: `removeArchive` over every tracked cache, collecting
each failure and continuing with the rest. -/
def cleanupAll (o : Oracle) (svc : ProviderService) (fs : FS) (tracked : List ProviderCache) :
    CleanupOut :=
  match tracked with
  | [] => { fs := fs, errs := [] }
  | c :: rest =>
    let r := ProviderCache.removeArchive o svc c fs
    let t := cleanupAll o svc r.1 rest
    { fs := t.fs, errs := r.2.toList ++ t.errs }

/-- Final state of the cancellation path of `RunCacheWorker`. -/
structure ShutdownOut where
  fs : FS
  tracked : List ProviderCache
  errs : List CacheErr
deriving Repr

/-- The `ctx.Done` branch of `RunCacheWorker`: wait for the spawned tasks
(the error group retains only the first task error), then run archive
cleanup over every tracked cache, aggregating the retained task error with
every cleanup error. -/
def cancelShutdown (o : Oracle) (svc : ProviderService) (fs : FS) : ShutdownOut :=
  let t := runTasks o svc fs svc.providerCacheCh
  let waitErr := errgroupWait t.errs
  let c := cleanupAll o svc t.fs t.tracked
  { fs := c.fs, tracked := t.tracked, errs := waitErr.toList ++ c.errs }

/-- `CacheProvider`: under the collection lock, return unchanged when an
identity match is already tracked; otherwise construct the cache with the
service-level retention flag, send it to the dispatch queue and append it
to the collection. -/
def CacheProvider (svc : ProviderService) (provider : Provider) : ProviderService :=
  match ProviderCaches.Find svc.providerCaches provider with
  | some _ => svc
  | none =>
    let cache : ProviderCache :=
      { provider := provider, needCacheArchive := svc.needCacheArchive, ready := false }
    { svc with
      providerCacheCh := svc.providerCacheCh ++ [cache]
      providerCaches := svc.providerCaches ++ [cache] }

/-- `GetProviderCache`: the tracked entry for the provider when it exists,
is ready, and its archive file exists on disk. -/
def GetProviderCache (svc : ProviderService) (fs : FS) (provider : Provider) :
    Option ProviderCache :=
  match ProviderCaches.Find svc.providerCaches provider with
  | some cache =>
      if cache.ready && fileExists fs (ProviderCache.ArchiveFilename svc cache) then some cache
      else none
  | none => none

/-! Concrete fixtures used by counterexamples and witnesses. -/

/-- Oracle on which every collaborator call succeeds. -/
def oracleAllOk : Oracle :=
  ⟨fun _ => true, fun _ => true, fun _ => true, fun _ => true, fun _ => true, fun _ => true⟩

def urlNull : URL := ⟨"https://releases.example.com/null.zip", "/null.zip"⟩

def providerNull : Provider :=
  ⟨"registry.io", "hashicorp", "null", "3.2.1", "linux", "amd64", some urlNull⟩

def providerNoURL : Provider := { providerNull with downloadURL := none }

def providerAwsNoURL : Provider :=
  ⟨"registry.io", "hashicorp", "aws", "1.0.0", "linux", "amd64", none⟩

/-- A ready tracked entry with retention disabled. -/
def cacheC1 : ProviderCache := ⟨providerNull, false, true⟩

def svcC1 : ProviderService :=
  { baseCacheDir := "cache", providerCaches := [cacheC1], providerCacheCh := []
    needCacheArchive := false, terraformPluginDir := "plugins" }

/-- A ready tracked entry whose download URL was never resolved. -/
def cacheC10 : ProviderCache := ⟨providerNoURL, false, true⟩

def svcC10 : ProviderService :=
  { baseCacheDir := "cache", providerCaches := [cacheC10], providerCacheCh := []
    needCacheArchive := false, terraformPluginDir := "plugins" }

/-- Service with archive retention disabled and no tracked work. -/
def svcNoRet : ProviderService :=
  { baseCacheDir := "cache", providerCaches := [], providerCacheCh := []
    needCacheArchive := false, terraformPluginDir := "plugins" }

/-- Service with archive retention enabled and no tracked work. -/
def svcRet : ProviderService :=
  { baseCacheDir := "cache", providerCaches := [], providerCacheCh := []
    needCacheArchive := true, terraformPluginDir := "plugins" }

/-- Unit with retention enabled (as created under `svcRet`). -/
def cacheC3 : ProviderCache := ⟨providerNull, true, false⟩

/-- Filesystem on which the host plugin directory for `cacheC3` exists. -/
def fsC3 : FS := [ProviderCache.terraformPluginPlatformDir svcRet cacheC3]

/-- Unit with retention disabled (as created under `svcNoRet`). -/
def cacheC3w : ProviderCache := ⟨providerNull, false, false⟩

/-- Unit with retention enabled whose download URL is unresolved. -/
def cacheC5 : ProviderCache := ⟨providerNoURL, true, false⟩

/-- Filesystem on which `cacheC5`'s platform directory pre-exists and is
non-empty. -/
def fsC5 : FS :=
  [ProviderCache.platformDir svcRet cacheC5,
   ProviderCache.platformDir svcRet cacheC5 ++ "/terraform-provider-null"]

/-- Fresh unit, retention disabled, unresolved download URL. -/
def cacheC7 : ProviderCache := ⟨providerNoURL, false, false⟩

/-- Fresh unit, retention disabled, resolved download URL. -/
def cacheC6 : ProviderCache := ⟨providerNull, false, false⟩

/-- Two enqueued units that will both fail warm-up (unresolved URLs). -/
def cacheC4a : ProviderCache := ⟨providerNoURL, false, false⟩

def cacheC4b : ProviderCache := ⟨providerAwsNoURL, false, false⟩

def svcC4 : ProviderService :=
  { baseCacheDir := "cache", providerCaches := [cacheC4a, cacheC4b]
    providerCacheCh := [cacheC4a, cacheC4b]
    needCacheArchive := false, terraformPluginDir := "plugins" }

/-- Filesystem on which `cacheC3`'s archive file exists. -/
def fsArch : FS := [ProviderCache.ArchiveFilename svcRet cacheC3]

/-- The tracked collection holds pairwise non-matching identities; the
invariant maintained by `CacheProvider`'s first-caller-wins dedup. -/
def IdentityDedup (l : ProviderCaches) : Prop :=
  List.Pairwise (fun a b => a.provider.Match b.provider = false) l

end TgCache

namespace TgCache

/-! Helper lemmas. -/

lemma strDataAppend (a b : String) : (a ++ b).data = a.data ++ b.data := rfl

lemma joinPath_data (a b : String) : (joinPath a b).data = a.data ++ '/' :: b.data := by
  show (a ++ "/" ++ b).data = a.data ++ '/' :: b.data
  rw [strDataAppend, strDataAppend]
  have h : ("/" : String).data = ['/'] := rfl
  rw [h, List.append_assoc]
  rfl

lemma slash_append_ne_empty (x : String) : "/" ++ x ≠ "" := by
  intro h
  have h2 : ("/" ++ x).data = ("" : String).data := congrArg String.data h
  rw [strDataAppend] at h2
  exact absurd h2 (by simp)

lemma string_append_assoc (a b c : String) : a ++ b ++ c = a ++ (b ++ c) := by
  apply String.ext
  rw [strDataAppend, strDataAppend, strDataAppend, strDataAppend, List.append_assoc]

lemma platformDir_eq_join (svc : ProviderService) (c : ProviderCache) :
    ProviderCache.platformDir svc c =
      ProviderCache.providerDir svc c ++ ("/" ++ c.provider.platform) := by
  show joinPath (ProviderCache.providerDir svc c) c.provider.platform = _
  exact string_append_assoc _ _ _

lemma platformDir_ne_providerDir (svc : ProviderService) (c : ProviderCache) :
    ProviderCache.platformDir svc c ≠ ProviderCache.providerDir svc c := by
  intro h
  have h2 := congrArg (fun s => s.data.length) h
  simp only [platformDir_eq_join, strDataAppend, List.length_append, List.length_cons,
    List.length_nil] at h2
  omega

lemma childOf_of_length_le (dir p : String) (h : p.data.length ≤ dir.data.length) :
    childOf dir p = false := by
  unfold childOf
  rw [decide_eq_false_iff_not]
  intro he
  have h2 := congrArg List.length he
  simp only [List.length_take, List.length_append, List.length_cons, List.length_nil] at h2
  omega

lemma childOf_self (s : String) : childOf s s = false :=
  childOf_of_length_le s s le_rfl

lemma childOf_platformDir_providerDir (svc : ProviderService) (c : ProviderCache) :
    childOf (ProviderCache.platformDir svc c) (ProviderCache.providerDir svc c) = false := by
  apply childOf_of_length_le
  rw [platformDir_eq_join, strDataAppend, List.length_append]
  omega

lemma fileExists_true_iff (fs : FS) (p : String) : fileExists fs p = true ↔ p ∈ fs := by
  simp [fileExists]

lemma fileExists_false_iff (fs : FS) (p : String) : fileExists fs p = false ↔ p ∉ fs := by
  simp [fileExists]

lemma mem_insertPath (fs : FS) (p q : String) : q ∈ insertPath fs p ↔ q = p ∨ q ∈ fs := by
  unfold insertPath
  by_cases h : p ∈ fs
  · simp only [if_pos h]
    constructor
    · exact fun hq => Or.inr hq
    · rintro (rfl | hq)
      · exact h
      · exact hq
  · simp [if_neg h]

lemma fileExists_insertPath (fs : FS) (p q : String) :
    fileExists (insertPath fs p) q = (decide (q = p) || fileExists fs q) := by
  simp [fileExists, mem_insertPath]

lemma fileExists_insertPath_ne (fs : FS) (p q : String) (h : q ≠ p) :
    fileExists (insertPath fs p) q = fileExists fs q := by
  rw [fileExists_insertPath]
  simp [h]

lemma fileExists_insertPath_of (fs : FS) (p q : String) (h : fileExists fs q = true) :
    fileExists (insertPath fs p) q = true := by
  rw [fileExists_insertPath, h, Bool.or_true]

lemma osRemove_subset (o : Oracle) (fs : FS) (p q : String) (h : q ∈ osRemove o fs p) : q ∈ fs := by
  unfold osRemove osRemoveTry at h
  by_cases hc : (fileExists fs p && o.removeOk p && !fs.any (childOf p)) = true
  · rw [if_pos hc] at h
    exact (List.mem_filter.mp h).1
  · rw [if_neg hc] at h
    exact h

lemma fileExists_osRemove_of_false (o : Oracle) (fs : FS) (p q : String)
    (h : fileExists fs q = false) : fileExists (osRemove o fs p) q = false := by
  rw [fileExists_false_iff] at h ⊢
  exact fun hm => h (osRemove_subset o fs p q hm)

lemma fileExists_osRemove_self (o : Oracle) (fs : FS) (p : String)
    (hrm : o.removeOk p = true) (hch : fs.any (childOf p) = false) :
    fileExists (osRemove o fs p) p = false := by
  unfold osRemove osRemoveTry
  by_cases he : fileExists fs p = true
  · rw [if_pos (by rw [he, hrm, hch]; rfl)]
    rw [fileExists_false_iff]
    intro hm
    exact absurd (List.mem_filter.mp hm).2 (by simp)
  · rw [if_neg (by rw [Bool.eq_false_iff.mpr he]; simp)]
    exact Bool.eq_false_iff.mpr he

lemma Provider.Match_iff {p q : Provider} :
    p.Match q = true ↔
      p.registryName = q.registryName ∧ p.namespaceName = q.namespaceName ∧
      p.name = q.name ∧ p.version = q.version ∧ p.os = q.os ∧ p.arch = q.arch := by
  simp [Provider.Match, Bool.and_eq_true, and_assoc]

lemma Provider.Match_refl (p : Provider) : p.Match p = true := by
  simp [Provider.Match_iff]

lemma Provider.Match_symm {p q : Provider} (h : p.Match q = true) : q.Match p = true := by
  rw [Provider.Match_iff] at h ⊢
  obtain ⟨h1, h2, h3, h4, h5, h6⟩ := h
  exact ⟨h1.symm, h2.symm, h3.symm, h4.symm, h5.symm, h6.symm⟩

lemma Provider.Match_trans {p q r : Provider} (h1 : p.Match q = true) (h2 : q.Match r = true) :
    p.Match r = true := by
  rw [Provider.Match_iff] at h1 h2 ⊢
  obtain ⟨a1, a2, a3, a4, a5, a6⟩ := h1
  obtain ⟨b1, b2, b3, b4, b5, b6⟩ := h2
  exact ⟨a1.trans b1, a2.trans b2, a3.trans b3, a4.trans b4, a5.trans b5, a6.trans b6⟩

/-- C9: path derivation is pure — for matching identities and equal base
cache directories the provider, platform and lock paths coincide — the
lock path is the platform path with the ".lock" suffix appended (a sibling
of the platform directory), and the provider directory is a proper prefix
of the platform directory. -/
theorem paths_pure_and_lock_is_sibling (svc svc' : ProviderService) (c c' : ProviderCache)
    (hbase : svc.baseCacheDir = svc'.baseCacheDir)
    (hid : c.provider.Match c'.provider = true) :
    ProviderCache.lockFilename svc c = ProviderCache.platformDir svc c ++ ".lock" ∧
    (∃ s, s ≠ "" ∧ ProviderCache.platformDir svc c = ProviderCache.providerDir svc c ++ s) ∧
    ProviderCache.providerDir svc c = ProviderCache.providerDir svc' c' ∧
    ProviderCache.platformDir svc c = ProviderCache.platformDir svc' c' ∧
    ProviderCache.lockFilename svc c = ProviderCache.lockFilename svc' c' := by
  obtain ⟨h1, h2, h3, h4, h5, h6⟩ := Provider.Match_iff.mp hid
  refine ⟨rfl, ⟨"/" ++ c.provider.platform, slash_append_ne_empty _, platformDir_eq_join svc c⟩,
    ?_, ?_, ?_⟩
  · unfold ProviderCache.providerDir Provider.idPath
    rw [hbase, h1, h2, h3, h4]
  · unfold ProviderCache.platformDir Provider.idPath Provider.platform
    rw [hbase, h1, h2, h3, h4, h5, h6]
  · unfold ProviderCache.lockFilename Provider.idPath Provider.platform
    rw [hbase, h1, h2, h3, h4, h5, h6]

/-- C9 (witness): instantiation at a concrete service and cache. -/
theorem paths_pure_and_lock_is_sibling_witness :
    svcC1.baseCacheDir = svcC1.baseCacheDir ∧ cacheC1.provider.Match cacheC1.provider = true ∧
    (ProviderCache.lockFilename svcC1 cacheC1 = ProviderCache.platformDir svcC1 cacheC1 ++ ".lock" ∧
     (∃ s, s ≠ "" ∧
        ProviderCache.platformDir svcC1 cacheC1 = ProviderCache.providerDir svcC1 cacheC1 ++ s) ∧
     ProviderCache.providerDir svcC1 cacheC1 = ProviderCache.providerDir svcC1 cacheC1 ∧
     ProviderCache.platformDir svcC1 cacheC1 = ProviderCache.platformDir svcC1 cacheC1 ∧
     ProviderCache.lockFilename svcC1 cacheC1 = ProviderCache.lockFilename svcC1 cacheC1) :=
  ⟨rfl, by decide,
    paths_pure_and_lock_is_sibling svcC1 svcC1 cacheC1 cacheC1 rfl (by decide)⟩

lemma find_eq_none_iff (l : ProviderCaches) (p : Provider) :
    ProviderCaches.Find l p = none ↔ ∀ c ∈ l, c.provider.Match p = false := by
  simp [ProviderCaches.Find, List.find?_eq_none]

lemma dedup_countP_le_one {l : ProviderCaches} (hd : IdentityDedup l) (P : Provider) :
    l.countP (fun c => c.provider.Match P) ≤ 1 := by
  induction l with
  | nil => simp
  | cons x xs ih =>
    have hx := List.pairwise_cons.mp hd
    by_cases hm : x.provider.Match P = true
    · have hz : xs.countP (fun c => c.provider.Match P) = 0 := by
        rw [List.countP_eq_zero]
        intro b hb hmb
        have hxb : x.provider.Match b.provider = true :=
          Provider.Match_trans hm (Provider.Match_symm hmb)
        rw [hx.1 b hb] at hxb
        cases hxb
      simp [List.countP_cons, hm, hz]
    · simpa [List.countP_cons, hm] using ih hx.2

lemma cacheProvider_preserves_dedup (svc : ProviderService) (p : Provider)
    (hd : IdentityDedup svc.providerCaches) :
    IdentityDedup (CacheProvider svc p).providerCaches := by
  cases hf : ProviderCaches.Find svc.providerCaches p with
  | some c => simpa only [CacheProvider, hf] using hd
  | none =>
    simp only [CacheProvider, hf]
    unfold IdentityDedup
    rw [List.pairwise_append]
    refine ⟨hd, List.pairwise_singleton _ _, ?_⟩
    intro a ha b hb
    have hfa := (find_eq_none_iff _ _).mp hf a ha
    rw [List.mem_singleton] at hb
    subst hb
    exact hfa

lemma cacheProvider_count_ge_one (svc : ProviderService) (p : Provider) :
    1 ≤ (CacheProvider svc p).providerCaches.countP (fun c => c.provider.Match p) := by
  cases hf : ProviderCaches.Find svc.providerCaches p with
  | some c =>
    simp only [CacheProvider, hf]
    have hf' : svc.providerCaches.find? (fun c => c.provider.Match p) = some c := hf
    have hmem : c ∈ svc.providerCaches := List.mem_of_find?_eq_some hf'
    have hmatch : c.provider.Match p = true := by simpa using List.find?_some hf'
    have hpos : 0 < svc.providerCaches.countP (fun c => c.provider.Match p) := by
      rw [List.countP_pos_iff]
      exact ⟨c, hmem, hmatch⟩
    omega
  | none =>
    simp only [CacheProvider, hf]
    rw [List.countP_append]
    have h1 : List.countP (fun c => c.provider.Match p)
        [({ provider := p, needCacheArchive := svc.needCacheArchive, ready := false } :
          ProviderCache)] = 1 := by
      simp [Provider.Match_refl]
    omega

lemma cacheProvider_count_mono (svc : ProviderService) (q P : Provider) :
    svc.providerCaches.countP (fun c => c.provider.Match P) ≤
      (CacheProvider svc q).providerCaches.countP (fun c => c.provider.Match P) := by
  cases hf : ProviderCaches.Find svc.providerCaches q with
  | some c => simp only [CacheProvider, hf]; exact le_rfl
  | none =>
    simp only [CacheProvider, hf]
    rw [List.countP_append]
    omega

lemma foldl_cacheProvider_dedup (ps : List Provider) (svc : ProviderService)
    (hd : IdentityDedup svc.providerCaches) :
    IdentityDedup ((ps.foldl CacheProvider svc).providerCaches) := by
  induction ps generalizing svc with
  | nil => exact hd
  | cons q ps ih => exact ih _ (cacheProvider_preserves_dedup svc q hd)

lemma foldl_cacheProvider_count_mono (ps : List Provider) (svc : ProviderService) (P : Provider) :
    svc.providerCaches.countP (fun c => c.provider.Match P) ≤
      ((ps.foldl CacheProvider svc).providerCaches).countP (fun c => c.provider.Match P) := by
  induction ps generalizing svc with
  | nil => exact le_rfl
  | cons q ps ih => exact le_trans (cacheProvider_count_mono svc q P) (ih _)

lemma foldl_cacheProvider_count_ge_one (ps : List Provider) (svc : ProviderService) (P : Provider)
    (hP : P ∈ ps) :
    1 ≤ ((ps.foldl CacheProvider svc).providerCaches).countP (fun c => c.provider.Match P) := by
  induction ps generalizing svc with
  | nil => cases hP
  | cons q ps ih =>
    rcases List.mem_cons.mp hP with rfl | hmem
    · exact le_trans (cacheProvider_count_ge_one svc P) (foldl_cacheProvider_count_mono ps _ P)
    · exact ih _ hmem

/-- C2: starting from a fresh service, after any sequence of
`CacheProvider` calls the tracked collection holds exactly one entry whose
identity matches `P` whenever `CacheProvider P` was called at least once;
and a `CacheProvider` call whose identity is already tracked returns with
the service unchanged (no collection growth, no enqueued work). -/
theorem cacheProvider_idempotent_per_identity (base : String) (flag : Bool)
    (ps : List Provider) (P : Provider) (hP : P ∈ ps) :
    ((ps.foldl CacheProvider (NewProviderService base flag)).providerCaches).countP
        (fun c => c.provider.Match P) = 1 ∧
    ∀ (svc : ProviderService) (q : Provider),
      (ProviderCaches.Find svc.providerCaches q).isSome = true → CacheProvider svc q = svc := by
  constructor
  · have hd : IdentityDedup (NewProviderService base flag).providerCaches := List.Pairwise.nil
    have h1 := foldl_cacheProvider_count_ge_one ps (NewProviderService base flag) P hP
    have h2 := dedup_countP_le_one (foldl_cacheProvider_dedup ps _ hd) P
    omega
  · intro svc q hq
    rw [Option.isSome_iff_exists] at hq
    obtain ⟨c, hc⟩ := hq
    simp only [CacheProvider, hc]

/-- C2 (witness): one call tracks exactly one matching entry, and repeat
calls leave any service with a tracked match unchanged. -/
theorem cacheProvider_idempotent_witness :
    providerNull ∈ [providerNull] ∧
    ((([providerNull].foldl CacheProvider (NewProviderService "cache" false))).providerCaches.countP
        (fun c => c.provider.Match providerNull) = 1 ∧
     ∀ (svc : ProviderService) (q : Provider),
       (ProviderCaches.Find svc.providerCaches q).isSome = true → CacheProvider svc q = svc) :=
  ⟨by decide,
    cacheProvider_idempotent_per_identity "cache" false [providerNull] providerNull (by decide)⟩

/-- C1 (counterexample): a tracked, ready entry with retention disabled
whose archive file is absent from disk — the claim requires a usable
result, but `GetProviderCache` returns `none` because it checks the
archive file's existence unconditionally. -/
theorem getProviderCache_c1_counterexample :
    GetProviderCache svcC1 [] providerNull = none ∧
    ProviderCaches.Find svcC1.providerCaches providerNull = some cacheC1 ∧
    cacheC1.ready = true ∧ cacheC1.needCacheArchive = false := by decide

/-- C1 (amended): `GetProviderCache` returns a cache exactly when a tracked
entry matches the provider, that entry is ready, and the archive file at
its archive path exists on disk — the existence check applies regardless
of the entry's archive-retention flag. -/
theorem getProviderCache_characterization (svc : ProviderService) (fs : FS) (p : Provider)
    (c : ProviderCache) :
    GetProviderCache svc fs p = some c ↔
      ProviderCaches.Find svc.providerCaches p = some c ∧ c.ready = true ∧
      fileExists fs (ProviderCache.ArchiveFilename svc c) = true := by
  cases hf : ProviderCaches.Find svc.providerCaches p with
  | none => simp [GetProviderCache, hf]
  | some c0 =>
    by_cases hc : (c0.ready && fileExists fs (ProviderCache.ArchiveFilename svc c0)) = true
    · have hand := hc
      rw [Bool.and_eq_true] at hand
      simp only [GetProviderCache, hf]
      rw [if_pos hc]
      constructor
      · rintro h
        cases h
        exact ⟨rfl, hand.1, hand.2⟩
      · rintro ⟨h1, _, _⟩
        cases h1
        rfl
    · simp only [GetProviderCache, hf]
      rw [if_neg hc]
      constructor
      · intro h
        cases h
      · rintro ⟨h1, h2, h3⟩
        cases h1
        exact absurd (by rw [h2, h3]; rfl) hc

/-- C10: when a provider's download URL is unset, `ArchiveFilename` is the
empty string, and since the empty path never exists on disk, lookup
returns absent for such a tracked entry even when it is marked ready. -/
theorem nil_downloadURL_archive_empty_and_absent (svc : ProviderService) (fs : FS)
    (p : Provider) (c : ProviderCache)
    (hwf : fileExists fs "" = false)
    (hfind : ProviderCaches.Find svc.providerCaches p = some c)
    (hurl : c.provider.downloadURL = none) :
    ProviderCache.ArchiveFilename svc c = "" ∧ GetProviderCache svc fs p = none := by
  have ha : ProviderCache.ArchiveFilename svc c = "" := by
    unfold ProviderCache.ArchiveFilename
    rw [hurl]
  refine ⟨ha, ?_⟩
  simp only [GetProviderCache, hfind]
  rw [ha, hwf, Bool.and_false]
  simp

/-- C10 (witness): instantiation at a ready tracked entry without a
resolved download URL on an empty filesystem. -/
theorem nil_downloadURL_witness :
    fileExists [] "" = false ∧
    ProviderCaches.Find svcC10.providerCaches providerNoURL = some cacheC10 ∧
    cacheC10.provider.downloadURL = none ∧
    (ProviderCache.ArchiveFilename svcC10 cacheC10 = "" ∧
     GetProviderCache svcC10 [] providerNoURL = none) :=
  ⟨by decide, by decide, by decide,
    nil_downloadURL_archive_empty_and_absent svcC10 [] providerNoURL cacheC10
      (by decide) (by decide) (by decide)⟩

lemma joinPath_ne_empty (a b : String) : joinPath a b ≠ "" := by
  intro h
  have h2 := congrArg (fun s => s.data.length) h
  simp only [joinPath_data, List.length_append, List.length_cons, List.length_nil] at h2
  omega

lemma fileExists_insertPath_empty (fs : FS) (a b : String) (h : fileExists fs "" = false) :
    fileExists (insertPath fs (joinPath a b)) "" = false := by
  rw [fileExists_insertPath_ne]
  · exact h
  · exact fun he => joinPath_ne_empty a b he.symm

/-- C7: during warm-up, when a fetch is required (the unit either already
needs the archive on an existing platform directory, or a fresh platform
directory was just created), the archive path is not on disk, and the
download URL is unset, warm-up fails with the download-URL-undefined error
before any fetch or decompress is attempted, and the error's message names
the provider.  The side condition `hsep` records that the host plugin
directory is a different path from the provider directory. -/
theorem warmUp_missing_downloadURL_fails_fast (o : Oracle) (svc : ProviderService)
    (cache : ProviderCache) (fs : FS)
    (hurl : cache.provider.downloadURL = none)
    (hwf : fileExists fs "" = false)
    (hmk : o.mkdirOk (ProviderCache.providerDir svc cache) = true)
    (hlk : o.lockOk (ProviderCache.lockFilename svc cache) = true)
    (hsep : ProviderCache.terraformPluginPlatformDir svc cache ≠
        ProviderCache.providerDir svc cache)
    (hcase : (fileExists fs (ProviderCache.platformDir svc cache) = true ∧
               cache.needCacheArchive = true) ∨
             (fileExists fs (ProviderCache.platformDir svc cache) = false ∧
              fileExists fs (ProviderCache.terraformPluginPlatformDir svc cache) = false ∧
              o.mkdirOk (ProviderCache.platformDir svc cache) = true)) :
    (ProviderCache.warmUp o svc cache fs).res =
        .error (.downloadURLUndefined cache.provider) ∧
    (∀ u d, Event.fetch u d ∉ (ProviderCache.warmUp o svc cache fs).events) ∧
    (∀ d a, Event.decompress d a ∉ (ProviderCache.warmUp o svc cache fs).events) ∧
    (∃ s1 s2, CacheErr.message (.downloadURLUndefined cache.provider) =
        s1 ++ cache.provider.toStr ++ s2) := by
  have ha : ProviderCache.ArchiveFilename svc cache = "" := by
    unfold ProviderCache.ArchiveFilename
    rw [hurl]
  have hmsg : ∃ s1 s2, CacheErr.message (.downloadURLUndefined cache.provider) =
      s1 ++ cache.provider.toStr ++ s2 :=
    ⟨"failed to cache provider \"", "\", the download URL is undefined", rfl⟩
  have hempty1 : fileExists (insertPath fs (ProviderCache.providerDir svc cache)) "" = false :=
    fileExists_insertPath_empty fs _ _ hwf
  rcases hcase with ⟨hpd, hflag⟩ | ⟨hpd, htp, hmkpd⟩
  · have e0 : fileExists (insertPath fs (ProviderCache.providerDir svc cache))
        (ProviderCache.platformDir svc cache) = true := fileExists_insertPath_of _ _ _ hpd
    unfold ProviderCache.warmUp warmUpStep3 warmUpStep4
    simp only [hmk, hlk, ha, e0, hempty1, hflag, hurl]
    simp [hmsg, hflag, hempty1, hurl]
  · have hne := platformDir_ne_providerDir svc cache
    have e0 : fileExists (insertPath fs (ProviderCache.providerDir svc cache))
        (ProviderCache.platformDir svc cache) = false := by
      rw [fileExists_insertPath_ne _ _ _ hne]
      exact hpd
    have e1 : fileExists (insertPath fs (ProviderCache.providerDir svc cache))
        (ProviderCache.terraformPluginPlatformDir svc cache) = false := by
      rw [fileExists_insertPath_ne _ _ _ hsep]
      exact htp
    have hempty2 : fileExists (insertPath (insertPath fs (ProviderCache.providerDir svc cache))
        (ProviderCache.platformDir svc cache)) "" = false :=
      fileExists_insertPath_empty _ _ _ hempty1
    unfold ProviderCache.warmUp warmUpStep3 warmUpStep4
    simp only [hmk, hlk, ha, e0, e1, hmkpd, hempty2, hurl]
    simp [hmsg, hempty2, hurl]

/-- C7 (witness): a fresh unit with unresolved download URL on an empty
filesystem fails fast naming the provider. -/
theorem warmUp_missing_downloadURL_witness :
    cacheC7.provider.downloadURL = none ∧ fileExists [] "" = false ∧
    ((ProviderCache.warmUp oracleAllOk svcNoRet cacheC7 []).res =
        .error (.downloadURLUndefined cacheC7.provider) ∧
     (∀ u d, Event.fetch u d ∉ (ProviderCache.warmUp oracleAllOk svcNoRet cacheC7 []).events) ∧
     (∀ d a, Event.decompress d a ∉
        (ProviderCache.warmUp oracleAllOk svcNoRet cacheC7 []).events) ∧
     (∃ s1 s2, CacheErr.message (.downloadURLUndefined cacheC7.provider) =
        s1 ++ cacheC7.provider.toStr ++ s2)) :=
  ⟨by decide, by decide,
    warmUp_missing_downloadURL_fails_fast oracleAllOk svcNoRet cacheC7 []
      (by decide) (by decide) (by decide) (by decide) (by decide)
      (Or.inr ⟨by decide, by decide, by decide⟩)⟩

/-- C3 (counterexample): platform directory absent, host plugin directory
present, archive retention enabled for the unit, archive absent — warm-up
creates the symlink but still invokes fetch, contradicting "never invokes
the fetch or decompress operations, regardless of the service's
archive-retention configuration". -/
theorem warmUp_symlink_c3_counterexample :
    fileExists fsC3 (ProviderCache.platformDir svcRet cacheC3) = false ∧
    fileExists fsC3 (ProviderCache.terraformPluginPlatformDir svcRet cacheC3) = true ∧
    Event.symlink (ProviderCache.terraformPluginPlatformDir svcRet cacheC3)
        (ProviderCache.platformDir svcRet cacheC3) ∈
      (ProviderCache.warmUp oracleAllOk svcRet cacheC3 fsC3).events ∧
    Event.fetch urlNull.full (ProviderCache.ArchiveFilename svcRet cacheC3) ∈
      (ProviderCache.warmUp oracleAllOk svcRet cacheC3 fsC3).events := by decide

/-- C3 (amended): when the platform directory is absent and the host
plugin directory exists at warm-up time, warm-up creates the platform
directory as a symlink to it and never decompresses; fetch is also not
invoked provided archive retention is disabled for the unit or the archive
file is already on disk (with retention enabled and the archive absent,
warm-up does still fetch). -/
theorem warmUp_symlink_reuse (o : Oracle) (svc : ProviderService) (cache : ProviderCache)
    (fs : FS)
    (hmk : o.mkdirOk (ProviderCache.providerDir svc cache) = true)
    (hlk : o.lockOk (ProviderCache.lockFilename svc cache) = true)
    (hsym : o.symlinkOk (ProviderCache.platformDir svc cache) = true)
    (hpd : fileExists fs (ProviderCache.platformDir svc cache) = false)
    (htp : fileExists fs (ProviderCache.terraformPluginPlatformDir svc cache) = true)
    (hret : cache.needCacheArchive = false ∨
        fileExists fs (ProviderCache.ArchiveFilename svc cache) = true) :
    (ProviderCache.warmUp o svc cache fs).res = .ok () ∧
    Event.symlink (ProviderCache.terraformPluginPlatformDir svc cache)
        (ProviderCache.platformDir svc cache) ∈ (ProviderCache.warmUp o svc cache fs).events ∧
    (∀ u d, Event.fetch u d ∉ (ProviderCache.warmUp o svc cache fs).events) ∧
    (∀ d a, Event.decompress d a ∉ (ProviderCache.warmUp o svc cache fs).events) ∧
    fileExists (ProviderCache.warmUp o svc cache fs).fs
        (ProviderCache.platformDir svc cache) = true := by
  have hne := platformDir_ne_providerDir svc cache
  have e0 : fileExists (insertPath fs (ProviderCache.providerDir svc cache))
      (ProviderCache.platformDir svc cache) = false := by
    rw [fileExists_insertPath_ne _ _ _ hne]
    exact hpd
  have e1 : fileExists (insertPath fs (ProviderCache.providerDir svc cache))
      (ProviderCache.terraformPluginPlatformDir svc cache) = true :=
    fileExists_insertPath_of _ _ _ htp
  have epd : fileExists (insertPath (insertPath fs (ProviderCache.providerDir svc cache))
      (ProviderCache.platformDir svc cache)) (ProviderCache.platformDir svc cache) = true := by
    rw [fileExists_insertPath]
    simp
  rcases hret with hflag | harch
  · unfold ProviderCache.warmUp warmUpStep3 warmUpStep4 warmUpStep5
    simp only [hmk, hlk, hsym, e0, e1, hflag]
    simp [epd, hflag]
  · have e2 : fileExists (insertPath (insertPath fs (ProviderCache.providerDir svc cache))
        (ProviderCache.platformDir svc cache)) (ProviderCache.ArchiveFilename svc cache) = true :=
      fileExists_insertPath_of _ _ _ (fileExists_insertPath_of _ _ _ harch)
    unfold ProviderCache.warmUp warmUpStep3 warmUpStep4 warmUpStep5
    simp only [hmk, hlk, hsym, e0, e1, e2]
    simp [epd, e2]

/-- C3 (amended, witness): retention disabled, host plugin directory
present — symlink reuse with no fetch and no decompress. -/
theorem warmUp_symlink_reuse_witness :
    fileExists fsC3 (ProviderCache.platformDir svcNoRet cacheC3w) = false ∧
    fileExists fsC3 (ProviderCache.terraformPluginPlatformDir svcNoRet cacheC3w) = true ∧
    cacheC3w.needCacheArchive = false ∧
    ((ProviderCache.warmUp oracleAllOk svcNoRet cacheC3w fsC3).res = .ok () ∧
     Event.symlink (ProviderCache.terraformPluginPlatformDir svcNoRet cacheC3w)
        (ProviderCache.platformDir svcNoRet cacheC3w) ∈
       (ProviderCache.warmUp oracleAllOk svcNoRet cacheC3w fsC3).events ∧
     (∀ u d, Event.fetch u d ∉ (ProviderCache.warmUp oracleAllOk svcNoRet cacheC3w fsC3).events) ∧
     (∀ d a,
        Event.decompress d a ∉ (ProviderCache.warmUp oracleAllOk svcNoRet cacheC3w fsC3).events) ∧
     fileExists (ProviderCache.warmUp oracleAllOk svcNoRet cacheC3w fsC3).fs
        (ProviderCache.platformDir svcNoRet cacheC3w) = true) :=
  ⟨by decide, by decide, by decide,
    warmUp_symlink_reuse oracleAllOk svcNoRet cacheC3w fsC3
      (by decide) (by decide) (by decide) (by decide) (by decide) (Or.inl (by decide))⟩

lemma fileExists_filter_self (fs : FS) (p : String) :
    fileExists (fs.filter (fun q => decide (q ≠ p))) p = false := by
  rw [fileExists_false_iff]
  intro hm
  have h := List.mem_filter.mp hm
  simp at h

/-- C6 (counterexample): service constructed with retention disabled; a
fresh unit is warmed up by download — warm-up itself flips the unit's
`needCacheArchive` flag, the archive exists on disk after the successful
warm-up, and shutdown cleanup then deletes it.  This contradicts both "no
archive file is ever deleted by cleanup when the service was constructed
with retention disabled" and "after a successful warm-up archivePath
exists on disk only when retention was requested". -/
theorem removeArchive_c6_counterexample :
    svcNoRet.needCacheArchive = false ∧ cacheC6.needCacheArchive = false ∧
    (ProviderCache.warmUp oracleAllOk svcNoRet cacheC6 []).res = .ok () ∧
    (ProviderCache.warmUp oracleAllOk svcNoRet cacheC6 []).cache.needCacheArchive = true ∧
    fileExists (ProviderCache.warmUp oracleAllOk svcNoRet cacheC6 []).fs
        (ProviderCache.ArchiveFilename svcNoRet cacheC6) = true ∧
    (ProviderCache.removeArchive oracleAllOk svcNoRet
        (ProviderCache.warmUp oracleAllOk svcNoRet cacheC6 []).cache
        (ProviderCache.warmUp oracleAllOk svcNoRet cacheC6 []).fs).2 = none ∧
    fileExists (ProviderCache.removeArchive oracleAllOk svcNoRet
        (ProviderCache.warmUp oracleAllOk svcNoRet cacheC6 []).cache
        (ProviderCache.warmUp oracleAllOk svcNoRet cacheC6 []).fs).1
        (ProviderCache.ArchiveFilename svcNoRet cacheC6) = false :=
  ⟨rfl, rfl, rfl, rfl, rfl, rfl, rfl⟩

/-- C6 (amended): shutdown cleanup deletes a unit's archive path iff the
unit's `needCacheArchive` flag is set and the file exists (and the removal
itself succeeds); it leaves the filesystem untouched when the flag is
unset or the file is absent.  Warm-up sets that flag whenever it had to
create a fresh platform directory for a download, regardless of the
service-level retention setting, so archives fetched during warm-up are on
disk after success and are deleted by cleanup even when the service was
constructed with retention disabled. -/
theorem removeArchive_iff_flag_and_exists (o : Oracle) (svc : ProviderService)
    (cache : ProviderCache) (fs : FS) :
    (cache.needCacheArchive = false → ProviderCache.removeArchive o svc cache fs = (fs, none)) ∧
    (fileExists fs (ProviderCache.ArchiveFilename svc cache) = false →
        ProviderCache.removeArchive o svc cache fs = (fs, none)) ∧
    (cache.needCacheArchive = true →
     fileExists fs (ProviderCache.ArchiveFilename svc cache) = true →
     o.removeOk (ProviderCache.ArchiveFilename svc cache) = true →
     fs.any (childOf (ProviderCache.ArchiveFilename svc cache)) = false →
     fileExists (ProviderCache.removeArchive o svc cache fs).1
         (ProviderCache.ArchiveFilename svc cache) = false ∧
       (ProviderCache.removeArchive o svc cache fs).2 = none) ∧
    (fileExists fs (ProviderCache.platformDir svc cache) = false →
     fileExists fs (ProviderCache.terraformPluginPlatformDir svc cache) = false →
     o.mkdirOk (ProviderCache.providerDir svc cache) = true →
     o.mkdirOk (ProviderCache.platformDir svc cache) = true →
     ProviderCache.terraformPluginPlatformDir svc cache ≠
         ProviderCache.providerDir svc cache →
     o.lockOk (ProviderCache.lockFilename svc cache) = true →
     (ProviderCache.warmUp o svc cache fs).cache.needCacheArchive = true) := by
  refine ⟨?_, ?_, ?_, ?_⟩
  · intro hflag
    simp only [ProviderCache.removeArchive, hflag]
    simp
  · intro harch
    simp only [ProviderCache.removeArchive, harch]
    simp
  · intro hflag harch hrm hany
    simp only [ProviderCache.removeArchive, osRemoveTry, hflag, harch, hrm, hany]
    simp
    rw [fileExists_false_iff]
    intro hm
    have h := List.mem_filter.mp hm
    simp at h
  · intro hpd htp hmk hmkpd hsep hlk
    have hne := platformDir_ne_providerDir svc cache
    have e0 : fileExists (insertPath fs (ProviderCache.providerDir svc cache))
        (ProviderCache.platformDir svc cache) = false := by
      rw [fileExists_insertPath_ne _ _ _ hne]
      exact hpd
    have e1 : fileExists (insertPath fs (ProviderCache.providerDir svc cache))
        (ProviderCache.terraformPluginPlatformDir svc cache) = false := by
      rw [fileExists_insertPath_ne _ _ _ hsep]
      exact htp
    unfold ProviderCache.warmUp warmUpStep3
    simp only [hmk, hlk, e0, e1, hmkpd]
    simp only [Bool.false_eq_true, if_false, if_true, reduceIte]
    cases h4 : warmUpStep4 o (ProviderCache.ArchiveFilename svc cache)
        { cache with needCacheArchive := true }
        (insertPath (insertPath fs (ProviderCache.providerDir svc cache))
          (ProviderCache.platformDir svc cache)) with
    | fail fs4 ev4 e => simp [h4]
    | ok fs4 ev4 =>
      cases h5 : warmUpStep5 o (ProviderCache.platformDir svc cache)
          (ProviderCache.ArchiveFilename svc cache) false fs4 with
      | fail fs5 ev5 e => simp [h4, h5]
      | ok fs5 ev5 => simp [h4, h5]

/-- C6 (witness): cleanup removes an existing archive of a unit whose
retention flag is set. -/
theorem removeArchive_witness :
    cacheC3.needCacheArchive = true ∧
    fileExists fsArch (ProviderCache.ArchiveFilename svcRet cacheC3) = true ∧
    (fileExists (ProviderCache.removeArchive oracleAllOk svcRet cacheC3 fsArch).1
        (ProviderCache.ArchiveFilename svcRet cacheC3) = false ∧
     (ProviderCache.removeArchive oracleAllOk svcRet cacheC3 fsArch).2 = none) :=
  ⟨by decide, by decide,
    (removeArchive_iff_flag_and_exists oracleAllOk svcRet cacheC3 fsArch).2.2.1
      (by decide) (by decide) (by decide) (by decide)⟩

lemma any_insertPath (fs : FS) (q : String) (p : String → Bool) :
    (insertPath fs q).any p = (p q || fs.any p) := by
  unfold insertPath
  by_cases h : q ∈ fs
  · rw [if_pos h]
    by_cases hp : p q = true
    · have ha : fs.any p = true := List.any_eq_true.mpr ⟨q, h, hp⟩
      rw [ha, hp, Bool.true_or]
    · rw [Bool.eq_false_iff.mpr hp, Bool.false_or]
  · rw [if_neg h, List.any_cons]

/-- C5 (counterexample): the unit's platform directory pre-exists and is
non-empty, retention is enabled, the archive is absent and the download
URL unset — warm-up fails, and the rollback's `os.Remove` cannot remove
the non-empty directory (the error is discarded), so `platformDir` still
exists after the failed warm-up, contradicting "platformDir does not exist
on disk" after any failure. -/
theorem rollback_c5_counterexample :
    (workerGo oracleAllOk svcRet cacheC5 fsC5).err =
        some (.downloadURLUndefined cacheC5.provider) ∧
    fileExists (workerGo oracleAllOk svcRet cacheC5 fsC5).fs
        (ProviderCache.platformDir svcRet cacheC5) = true :=
  ⟨rfl, rfl⟩

/-- C5 (amended): the rollback after a failed warm-up removes the platform
directory only when nothing exists beneath it; in particular, whenever no
path beneath the platform directory existed at warm-up start (and the
archive path does not lie inside it, and the removal operation itself
succeeds), every failure path of warm-up leaves no platform directory
behind.  A pre-existing non-empty platform directory instead survives the
rollback. -/
lemma warmUpStep3_fail_fs (o : Oracle) (tppd pd : String) (cache : ProviderCache) (fs : FS)
    (fs3 : FS) (ev3 : List Event) (e : CacheErr)
    (h : warmUpStep3 o tppd pd cache fs = .fail fs3 ev3 e) : fs3 = fs := by
  unfold warmUpStep3 at h
  repeat' split at h
  all_goals cases h
  all_goals rfl

lemma warmUpStep3_ok_fs (o : Oracle) (tppd pd : String) (cache : ProviderCache) (fs : FS)
    (fs3 : FS) (c3 : ProviderCache) (al : Bool) (ev3 : List Event)
    (h : warmUpStep3 o tppd pd cache fs = .ok fs3 c3 al ev3) :
    fs3 = fs ∨ fs3 = insertPath fs pd := by
  unfold warmUpStep3 at h
  repeat' split at h
  all_goals cases h
  all_goals simp

lemma warmUpStep4_fail_fs (o : Oracle) (a : String) (cache : ProviderCache) (fs : FS)
    (fs4 : FS) (ev4 : List Event) (e : CacheErr)
    (h : warmUpStep4 o a cache fs = .fail fs4 ev4 e) : fs4 = fs := by
  unfold warmUpStep4 at h
  repeat' split at h
  all_goals cases h
  all_goals rfl

lemma warmUpStep4_ok_fs (o : Oracle) (a : String) (cache : ProviderCache) (fs : FS)
    (fs4 : FS) (ev4 : List Event)
    (h : warmUpStep4 o a cache fs = .ok fs4 ev4) : fs4 = fs ∨ fs4 = insertPath fs a := by
  unfold warmUpStep4 at h
  repeat' split at h
  all_goals cases h
  all_goals simp

lemma warmUpStep5_fail_fs (o : Oracle) (pd a : String) (al : Bool) (fs : FS)
    (fs5 : FS) (ev5 : List Event) (e : CacheErr)
    (h : warmUpStep5 o pd a al fs = .fail fs5 ev5 e) : fs5 = fs := by
  unfold warmUpStep5 at h
  repeat' split at h
  all_goals cases h
  all_goals rfl

lemma warmUp_fs_shape (o : Oracle) (svc : ProviderService) (cache : ProviderCache) (fs : FS) :
    (∃ u, (ProviderCache.warmUp o svc cache fs).res = .ok u) ∨
    ((ProviderCache.warmUp o svc cache fs).fs = fs ∨
     (ProviderCache.warmUp o svc cache fs).fs =
        insertPath fs (ProviderCache.providerDir svc cache) ∨
     (ProviderCache.warmUp o svc cache fs).fs =
        insertPath (insertPath fs (ProviderCache.providerDir svc cache))
          (ProviderCache.platformDir svc cache) ∨
     (ProviderCache.warmUp o svc cache fs).fs =
        insertPath (insertPath fs (ProviderCache.providerDir svc cache))
          (ProviderCache.ArchiveFilename svc cache) ∨
     (ProviderCache.warmUp o svc cache fs).fs =
        insertPath (insertPath (insertPath fs (ProviderCache.providerDir svc cache))
          (ProviderCache.platformDir svc cache)) (ProviderCache.ArchiveFilename svc cache)) := by
  unfold ProviderCache.warmUp
  dsimp only
  by_cases h1 : o.mkdirOk (ProviderCache.providerDir svc cache) = false
  · rw [if_pos h1]
    right
    left
    rfl
  · rw [if_neg h1]
    by_cases h2 : o.lockOk (ProviderCache.lockFilename svc cache) = false
    · rw [if_pos h2]
      right
      right
      left
      rfl
    · rw [if_neg h2]
      cases h3 : warmUpStep3 o (ProviderCache.terraformPluginPlatformDir svc cache)
          (ProviderCache.platformDir svc cache) cache
          (insertPath fs (ProviderCache.providerDir svc cache)) with
      | fail fs3 ev3 e =>
        dsimp only
        have hs := warmUpStep3_fail_fs _ _ _ _ _ _ _ _ h3
        right
        right
        left
        exact hs
      | ok fs3 c3 al ev3 =>
        dsimp only
        have hs3 := warmUpStep3_ok_fs _ _ _ _ _ _ _ _ _ h3
        cases h4 : warmUpStep4 o (ProviderCache.ArchiveFilename svc cache) c3 fs3 with
        | fail fs4 ev4 e =>
          dsimp only
          have hs4 := warmUpStep4_fail_fs _ _ _ _ _ _ _ h4
          subst hs4
          right
          rcases hs3 with h | h <;> simp [h]
        | ok fs4 ev4 =>
          dsimp only
          have hs4 := warmUpStep4_ok_fs _ _ _ _ _ _ h4
          cases h5 : warmUpStep5 o (ProviderCache.platformDir svc cache)
              (ProviderCache.ArchiveFilename svc cache) al fs4 with
          | fail fs5 ev5 e =>
            dsimp only
            have hs5 := warmUpStep5_fail_fs _ _ _ _ _ _ _ _ h5
            subst hs5
            right
            rcases hs4 with h | h <;> rcases hs3 with h' | h' <;> simp [h, h']
          | ok fs5 ev5 =>
            dsimp only
            left
            exact ⟨(), rfl⟩

theorem rollback_removes_fresh_platformDir (o : Oracle) (svc : ProviderService)
    (cache : ProviderCache) (fs : FS)
    (hch : fs.any (childOf (ProviderCache.platformDir svc cache)) = false)
    (harch : childOf (ProviderCache.platformDir svc cache)
        (ProviderCache.ArchiveFilename svc cache) = false)
    (hrm : o.removeOk (ProviderCache.platformDir svc cache) = true) :
    (workerGo o svc cache fs).err.isSome = true →
      fileExists (workerGo o svc cache fs).fs (ProviderCache.platformDir svc cache) = false := by
  have hprd := childOf_platformDir_providerDir svc cache
  have hself := childOf_self (ProviderCache.platformDir svc cache)
  have a1 : (insertPath fs (ProviderCache.providerDir svc cache)).any
      (childOf (ProviderCache.platformDir svc cache)) = false := by
    rw [any_insertPath, hprd, hch]
    rfl
  have a2 : (insertPath (insertPath fs (ProviderCache.providerDir svc cache))
      (ProviderCache.platformDir svc cache)).any
      (childOf (ProviderCache.platformDir svc cache)) = false := by
    rw [any_insertPath, hself, a1]
    rfl
  have a3 : (insertPath (insertPath (insertPath fs (ProviderCache.providerDir svc cache))
      (ProviderCache.platformDir svc cache)) (ProviderCache.ArchiveFilename svc cache)).any
      (childOf (ProviderCache.platformDir svc cache)) = false := by
    rw [any_insertPath, harch, a2]
    rfl
  have a4 : (insertPath (insertPath fs (ProviderCache.providerDir svc cache))
      (ProviderCache.ArchiveFilename svc cache)).any
      (childOf (ProviderCache.platformDir svc cache)) = false := by
    rw [any_insertPath, harch, a1]
    rfl
  intro herr
  cases hres : (ProviderCache.warmUp o svc cache fs).res with
  | ok u =>
    exfalso
    unfold workerGo at herr
    dsimp only at herr
    rw [hres] at herr
    simp at herr
  | error e =>
    unfold workerGo
    dsimp only
    rw [hres]
    dsimp only
    rcases warmUp_fs_shape o svc cache fs with ⟨u, hok⟩ | hfs
    · rw [hres] at hok
      cases hok
    · rcases hfs with h | h | h | h | h
      · rw [h]
        exact fileExists_osRemove_self o _ _ hrm hch
      · rw [h]
        exact fileExists_osRemove_self o _ _ hrm a1
      · rw [h]
        exact fileExists_osRemove_self o _ _ hrm a2
      · rw [h]
        exact fileExists_osRemove_self o _ _ hrm a4
      · rw [h]
        exact fileExists_osRemove_self o _ _ hrm a3

/-- C5 (amended, witness): a fresh unit whose warm-up fails (unresolved
URL) leaves no platform directory after rollback. -/
theorem rollback_removes_fresh_platformDir_witness :
    ([] : FS).any (childOf (ProviderCache.platformDir svcNoRet cacheC7)) = false ∧
    childOf (ProviderCache.platformDir svcNoRet cacheC7)
        (ProviderCache.ArchiveFilename svcNoRet cacheC7) = false ∧
    (workerGo oracleAllOk svcNoRet cacheC7 []).err.isSome = true ∧
    fileExists (workerGo oracleAllOk svcNoRet cacheC7 []).fs
        (ProviderCache.platformDir svcNoRet cacheC7) = false :=
  ⟨by decide, by decide, by decide,
    rollback_removes_fresh_platformDir oracleAllOk svcNoRet cacheC7 []
      (by decide) (by decide) (by decide) (by decide)⟩

lemma runTasks_tracked_length (o : Oracle) (svc : ProviderService) :
    ∀ (queue : List ProviderCache) (fs : FS),
      (runTasks o svc fs queue).tracked.length = queue.length := by
  intro queue
  induction queue with
  | nil => intro fs; rfl
  | cons c rest ih =>
    intro fs
    simp [runTasks, ih]

/-- C4 (counterexample): two enqueued units whose warm-ups both fail — the
aggregate returned at shutdown contains only the first warm-up failure
(the error group keeps one error); the second warm-up failure is absent,
so the aggregate does not contain every warm-up failure. -/
theorem cancelShutdown_c4_counterexample :
    (runTasks oracleAllOk svcC4 [] svcC4.providerCacheCh).errs =
      [.downloadURLUndefined providerNoURL, .downloadURLUndefined providerAwsNoURL] ∧
    (cancelShutdown oracleAllOk svcC4 []).errs = [.downloadURLUndefined providerNoURL] ∧
    CacheErr.downloadURLUndefined providerAwsNoURL ∉ (cancelShutdown oracleAllOk svcC4 []).errs :=
  ⟨rfl, rfl, by decide⟩

/-- C4 (amended): on cancellation the worker stops accepting work and, in
the model, every enqueued unit's spawned task runs to completion — each
enqueued cache yields exactly one tracked outcome — and the aggregated
error consists of the first warm-up failure (the error group retains only
the first task error, dropping later warm-up failures) together with every
archive-cleanup failure collected over all tracked caches. -/
theorem cancelShutdown_aggregation (o : Oracle) (svc : ProviderService) (fs : FS) :
    (cancelShutdown o svc fs).tracked.length = svc.providerCacheCh.length ∧
    (∀ e, e ∈ (cancelShutdown o svc fs).errs ↔
      ((runTasks o svc fs svc.providerCacheCh).errs.head? = some e ∨
        e ∈ (cleanupAll o svc (runTasks o svc fs svc.providerCacheCh).fs
              (runTasks o svc fs svc.providerCacheCh).tracked).errs)) := by
  constructor
  · simp only [cancelShutdown]
    exact runTasks_tracked_length o svc svc.providerCacheCh fs
  · intro e
    simp only [cancelShutdown, errgroupWait]
    rw [List.mem_append]
    cases h : (runTasks o svc fs svc.providerCacheCh).errs.head? <;> simp [h, eq_comm]

end TgCache
